import Mathlib

/-!
Shallow embedding of the Supabase edge-function middleware pipeline and its
endpoint handlers (source: supabase/functions/_shared/middleware.ts,
supabase/functions/get-user/index.ts, supabase/functions/login/index.ts,
and the standalone register handler bundled with get-user/index.ts).

External effects are modelled explicitly:
  * `Deno.env.get` becomes an `Env : String → Option String` parameter;
  * each `fetch` call to the identity provider becomes an oracle parameter
    describing the provider's reply for the request the code would send;
  * the data-store `.select().single()` / `.insert().select().single()`
    calls become oracle parameters returning either a row or an error;
  * thrown JS `Error`s become `Except String` (the `String` is the
    `error.message` the pipeline's catch block inspects).
JavaScript-specific semantics (falsiness of `undefined`/empty string,
`String.prototype.includes/startsWith/replace/trim`) are modelled by the
`js*` helpers below.
-/

/-!
The standalone register handler (the duplicated, pipeline-free version
bundled with get-user/index.ts) is embedded with its identity-provider
fetches recorded in a call trace so that the compensation behaviour
(deleting the provider account when the data-store insert fails) is
observable. Concrete fixtures used by the witness theorems follow the
embedding.
-/

/-- JSON values, used for request/response bodies and data-store rows. -/
inductive Json where
  | null
  | bool (b : Bool)
  | num (n : Int)
  | str (s : String)
  | arr (elems : List Json)
  | obj (fields : List (String × Json))

/-- JavaScript truthiness of a defined JSON value. -/
def jsTruthy : Json → Bool
  | .null => false
  | .bool b => b
  | .num n => n != 0
  | .str s => s ≠ ""
  | .arr _ => true
  | .obj _ => true

/-- Property access `data[field]`: `none` models JS `undefined`. -/
def jsGet (j : Json) (field : String) : Option Json :=
  match j with
  | .obj fields => (fields.find? (fun p => p.1 = field)).map (fun p => p.2)
  | _ => none

/-- Truthiness of a possibly-`undefined` value (`!data[field]` checks). -/
def jsTruthyOpt : Option Json → Bool
  | none => false
  | some j => jsTruthy j

/-- Keys of a JSON object (empty for non-objects). -/
def jsonObjKeys : Json → List String
  | .obj fields => fields.map (fun p => p.1)
  | _ => []

/-- Falsiness of `Deno.env.get(...)` results: absent or empty string. -/
def jsFalsyS : Option String → Bool
  | none => true
  | some s => s = ""

/-- JS `a || b` on a possibly-absent string: the default wins when the
value is `undefined` or empty (both falsy). -/
def jsOrStr (o : Option String) (d : String) : String :=
  match o with
  | none => d
  | some s => if s = "" then d else s

/-- Character-list prefix test (first argument is the pattern). -/
def listStarts : List Char → List Char → Bool
  | [], _ => true
  | _ :: _, [] => false
  | p :: ps, c :: cs => p == c && listStarts ps cs

/-- Character-list substring test (first argument is the pattern). -/
def charsContains (pat : List Char) : List Char → Bool
  | [] => pat.isEmpty
  | c :: rest => listStarts pat (c :: rest) || charsContains pat rest

/-- Replace the first occurrence of `pat` (if any) by `rep`. -/
def charsReplaceFirst (pat rep : List Char) : List Char → List Char
  | [] => if pat.isEmpty then rep else []
  | c :: rest =>
    if listStarts pat (c :: rest) then rep ++ List.drop pat.length (c :: rest)
    else c :: charsReplaceFirst pat rep rest

/-- JS `s.includes(pat)`. -/
def jsIncludes (s pat : String) : Bool := charsContains pat.data s.data

/-- JS `s.startsWith(pre)`. -/
def jsStartsWith (s pre : String) : Bool := listStarts pre.data s.data

/-- JS `s.replace(pat, rep)` (first occurrence only). -/
def jsReplaceFirst (s pat rep : String) : String :=
  String.mk (charsReplaceFirst pat.data rep.data s.data)

/-- Whitespace characters removed by JS `trim`. -/
def jsWhitespace (c : Char) : Bool := c == ' ' || c == '\t' || c == '\n' || c == '\r'

/-- JS `s.trim()`. -/
def jsTrim (s : String) : String :=
  String.mk (((s.data.dropWhile jsWhitespace).reverse.dropWhile jsWhitespace).reverse)

/-- Environment (`Deno.env.get`). -/
abbrev Env := String → Option String

/-- Parsed URL data: the part of `new URL(req.url)` the handlers read. -/
structure URLData where
  searchParams : List (String × String)
deriving DecidableEq, Repr

/-- `url.searchParams.get(name)`: first value for the key, or null. -/
def urlSearchGet (url : URLData) (name : String) : Option String :=
  (url.searchParams.find? (fun p => p.1 = name)).map (fun p => p.2)

/-- Inbound HTTP request: method, parsed URL, the `Authorization` header
(`none` = absent), and the result of `await req.json()` (`Except.error`
models a body-parse failure being thrown). -/
structure Request where
  method : String
  url : URLData
  authorization : Option String
  jsonBody : Except String Json

/-- Response bodies: raw text (`new Response('ok', ...)`) or the
`JSON.stringify` of a JSON value. -/
inductive HttpBody where
  | text (s : String)
  | json (j : Json)

/-- Outbound HTTP response. -/
structure Response where
  status : Nat
  body : HttpBody
  headers : List (String × String)

/-- Header-object spread: entries of `b` override same-keyed entries of `a`. -/
def mergeHeaders (a b : List (String × String)) : List (String × String) :=
  a.filter (fun p => b.all (fun q => q.1 ≠ p.1)) ++ b

/-- Shared CORS headers from middleware.ts. -/
def corsHeaders : List (String × String) :=
  [("Access-Control-Allow-Origin", "*"),
   ("Access-Control-Allow-Headers", "authorization, x-client-info, apikey, content-type"),
   ("Access-Control-Allow-Methods", "GET, POST, PUT, DELETE, OPTIONS"),
   ("Content-Type", "application/json")]

/-- `handleCorsPreflightRequest`: OPTIONS requests get an immediate
200 `'ok'` response with the CORS headers; otherwise null. -/
def handleCorsPreflightRequest (req : Request) : Option Response :=
  if req.method = "OPTIONS" then
    some { status := 200, body := .text "ok", headers := corsHeaders }
  else none

/-- `createErrorResponse(message, status, additionalHeaders)`. -/
def createErrorResponse (message : String) (status : Nat)
    (additionalHeaders : List (String × String)) : Response :=
  { status := status,
    body := .json (.obj [("error", .str message)]),
    headers := mergeHeaders corsHeaders additionalHeaders }

/-- `createSuccessResponse(data, status, additionalHeaders)`. -/
def createSuccessResponse (data : Json) (status : Nat)
    (additionalHeaders : List (String × String)) : Response :=
  { status := status,
    body := .json data,
    headers := mergeHeaders corsHeaders additionalHeaders }

/-- Data-store client handle produced by `createSupabaseClient`. -/
structure SupabaseClient where
  url : String
  serviceKey : String
deriving DecidableEq, Repr

/-- `createSupabaseClient`: throws when `SUPABASE_URL` or
`SUPABASE_SERVICE_ROLE_KEY` is absent (or empty, both falsy). -/
def createSupabaseClient (env : Env) : Except String SupabaseClient :=
  if jsFalsyS (env "SUPABASE_URL") || jsFalsyS (env "SUPABASE_SERVICE_ROLE_KEY") then
    .error "Missing Supabase configuration: SUPABASE_URL and SUPABASE_SERVICE_ROLE_KEY are required"
  else
    .ok { url := (env "SUPABASE_URL").getD "", serviceKey := (env "SUPABASE_SERVICE_ROLE_KEY").getD "" }

/-- Identity-provider account record (`interface FirebaseUser`); only the
fields with concrete types are kept (the `any`-typed ones are unused). -/
structure FirebaseUser where
  localId : String
  email : String
  emailVerified : Bool
  displayName : Option String
  photoUrl : Option String
  passwordHash : Option String
  validSince : Option String
  disabled : Option Bool
  lastLoginAt : Option String
  createdAt : Option String
deriving DecidableEq, Repr

/-- Reply of the provider's `accounts:lookup` fetch for one token:
either a non-2xx error (`message` = `errorData.error?.message`, `none`
modelling an absent field) or a 2xx body whose `users` field may be
absent (`none`), empty, or a list of accounts. -/
inductive LookupResult where
  | httpError (message : Option String)
  | success (users : Option (List FirebaseUser))
deriving DecidableEq, Repr

/-- Body of the try-block of `verifyFirebaseToken`, before its catch
re-wraps the error message. -/
def verifyLookupStep : LookupResult → Except String FirebaseUser
  | .httpError m => .error (jsOrStr m "Invalid or expired token")
  | .success none => .error "Invalid token: No user found"
  | .success (some []) => .error "Invalid token: No user found"
  | .success (some (u :: _)) => .ok u

/-- `verifyFirebaseToken(token)`: checks the provider key, then runs the
lookup; the surrounding try/catch re-throws every failure of the try
block as `Firebase token verification failed: <original message>`. -/
def verifyFirebaseToken (env : Env) (lookup : String → LookupResult)
    (token : String) : Except String FirebaseUser :=
  if jsFalsyS (env "FIREBASE_WEB_API_KEY") then
    .error "Firebase Web API Key not configured"
  else
    match verifyLookupStep (lookup token) with
    | .ok u => .ok u
    | .error m => .error ("Firebase token verification failed: " ++ m)

/-- `extractAndVerifyToken(req)`: Authorization-header checks, then
delegation to `verifyFirebaseToken` with the stripped, trimmed token. -/
def extractAndVerifyToken (env : Env) (lookup : String → LookupResult)
    (req : Request) : Except String FirebaseUser :=
  match req.authorization with
  | none => .error "Unauthorized: No valid Bearer token provided"
  | some authHeader =>
    if jsStartsWith authHeader "Bearer " then
      let token := jsTrim (jsReplaceFirst authHeader "Bearer " "")
      if token = "" then .error "Unauthorized: Empty token provided"
      else verifyFirebaseToken env lookup token
    else .error "Unauthorized: No valid Bearer token provided"

/-- Token bundle returned by the provider's password sign-in (fields the
handlers read). -/
structure TokenBundle where
  localId : String
  idToken : String
  refreshToken : String
  expiresIn : String
deriving DecidableEq, Repr

/-- Reply of the provider's `accounts:signInWithPassword` fetch. -/
inductive SignInResult where
  | httpError (message : Option String)
  | ok (bundle : TokenBundle)
deriving DecidableEq, Repr

/-- `authenticateWithFirebase(email, password)`: key check, then the
sign-in call; a non-2xx reply throws the provider's message (or the
`Invalid login credentials` fallback). No wrapping catch here. -/
def authenticateWithFirebase (env : Env)
    (signIn : Option Json → Option Json → SignInResult)
    (email password : Option Json) : Except String TokenBundle :=
  if jsFalsyS (env "FIREBASE_WEB_API_KEY") then
    .error "Firebase Web API Key not configured"
  else
    match signIn email password with
    | .httpError m => .error (jsOrStr m "Invalid login credentials")
    | .ok b => .ok b

/-- `validateRequiredFields(data, requiredFields)`. -/
def validateRequiredFields (data : Json) (requiredFields : List String) :
    Except String Unit :=
  let missingFields := requiredFields.filter (fun f => !jsTruthyOpt (jsGet data f))
  if missingFields.isEmpty then .ok ()
  else .error ("Missing required fields: " ++ String.intercalate ", " missingFields)

/-- `getRequiredQueryParam(url, paramName)` (`!value` also rejects ""). -/
def getRequiredQueryParam (url : URLData) (paramName : String) :
    Except String String :=
  match urlSearchGet url paramName with
  | none => .error ("Missing required query parameter: " ++ paramName)
  | some v =>
    if v = "" then .error ("Missing required query parameter: " ++ paramName)
    else .ok v

/-- Per-request context handed to handlers. -/
structure MiddlewareContext where
  firebaseUser : Option FirebaseUser
  supabaseClient : SupabaseClient
  url : URLData

/-- Pipeline options (`requireAuth`, `validateEnv`; both default false at
call sites, made explicit here). -/
structure Options where
  requireAuth : Bool
  validateEnv : Bool
deriving DecidableEq, Repr

/-- The three required environment variables checked by `validateEnv`. -/
def requiredEnvVars : List String :=
  ["SUPABASE_URL", "SUPABASE_SERVICE_ROLE_KEY", "FIREBASE_WEB_API_KEY"]

/-- Body of `withMiddleware`'s try block: CORS short-circuit, optional
env validation, context construction, optional authentication, handler. -/
def runMiddleware (env : Env) (lookup : String → LookupResult) (req : Request)
    (handler : Request → MiddlewareContext → Except String Response)
    (opts : Options) : Except String Response :=
  match handleCorsPreflightRequest req with
  | some corsResponse => .ok corsResponse
  | none =>
    (if opts.validateEnv then
      let missingEnvVars := requiredEnvVars.filter (fun v => jsFalsyS (env v))
      if missingEnvVars.isEmpty then .ok ()
      else .error ("Missing environment variables: " ++ String.intercalate ", " missingEnvVars)
    else .ok ()) >>= fun _ =>
    createSupabaseClient env >>= fun client =>
    let context : MiddlewareContext :=
      { firebaseUser := none, supabaseClient := client, url := req.url }
    if opts.requireAuth then
      extractAndVerifyToken env lookup req >>= fun u =>
        handler req { context with firebaseUser := some u }
    else handler req context

/-- The catch block of `withMiddleware`: substring classification of the
caught message, with the `error.message || 'Internal server error'`
fallback in the final branch. -/
def middlewareErrorResponse (m : String) : Response :=
  if jsIncludes m "Unauthorized" then createErrorResponse m 401 []
  else if jsIncludes m "Missing required" then createErrorResponse m 400 []
  else if jsIncludes m "not found" || jsIncludes m "Not found" then createErrorResponse m 404 []
  else if jsIncludes m "Forbidden" then createErrorResponse m 403 []
  else createErrorResponse (if m = "" then "Internal server error" else m) 500 []

/-- `withMiddleware(req, handler, options)`: the try body plus the
boundary catch. -/
def withMiddleware (env : Env) (lookup : String → LookupResult) (req : Request)
    (handler : Request → MiddlewareContext → Except String Response)
    (opts : Options) : Response :=
  match runMiddleware env lookup req handler opts with
  | .ok r => r
  | .error m => middlewareErrorResponse m

/-- A user row returned by the data store (`select('*')`): the six
columns the code reads, plus any further columns (`extra`). -/
structure UserRow where
  id : Json
  name : Json
  email : Json
  firebase_uid : String
  created_at : Json
  updated_at : Json
  extra : List (String × Json)

/-- `sanitizeUserData(user)`: the fixed six-field projection. -/
def sanitizeUserData (user : UserRow) : Json :=
  .obj [("id", user.id),
        ("name", user.name),
        ("email", user.email),
        ("firebase_uid", .str user.firebase_uid),
        ("created_at", user.created_at),
        ("updated_at", user.updated_at)]

/-- Result of a `.select().single()` / `.insert().select().single()`
data-store call: exactly one of `data` and `error` is set. -/
inductive DbSingleResult where
  | failure (message : String)
  | success (row : UserRow)

/-- `dbUser.firebase_uid !== context.firebaseUser?.localId`: when no
account is attached, `undefined` differs from any string column. -/
def ownerMismatch (row : UserRow) (fu : Option FirebaseUser) : Bool :=
  match fu with
  | some u => row.firebase_uid ≠ u.localId
  | none => true

/-- `authenticated_as` object of the get-user success body; a `none`
account would make both values `undefined`, which `JSON.stringify`
drops from the serialized object. -/
def authenticatedAsJson (fu : Option FirebaseUser) : Json :=
  match fu with
  | some u => .obj [("email", .str u.email), ("firebase_uid", .str u.localId)]
  | none => .obj []

/-- get-user handler (shared-pipeline version in get-user/index.ts). -/
def getUserHandler (dbById : String → DbSingleResult)
    (req : Request) (context : MiddlewareContext) : Except String Response :=
  getRequiredQueryParam context.url "id" >>= fun userId =>
  match dbById userId with
  | .failure _ => .error "User not found"
  | .success dbUser =>
    if ownerMismatch dbUser context.firebaseUser then
      .error "Forbidden: You can only access your own user data"
    else
      .ok (createSuccessResponse
        (.obj [("success", .bool true),
               ("user", sanitizeUserData dbUser),
               ("authenticated_as", authenticatedAsJson context.firebaseUser)])
        200 [])

/-- The get-user endpoint: `withMiddleware` with the get-user handler,
`requireAuth: true, validateEnv: true`. -/
def getUserServe (env : Env) (lookup : String → LookupResult)
    (dbById : String → DbSingleResult) (req : Request) : Response :=
  withMiddleware env lookup req (getUserHandler dbById)
    { requireAuth := true, validateEnv := true }

/-- login handler (login/index.ts). -/
def loginHandler (env : Env)
    (signIn : Option Json → Option Json → SignInResult)
    (dbByUid : String → DbSingleResult)
    (req : Request) (_context : MiddlewareContext) : Except String Response :=
  req.jsonBody >>= fun requestBody =>
  let email := jsGet requestBody "email"
  let password := jsGet requestBody "password"
  validateRequiredFields requestBody ["email", "password"] >>= fun _ =>
  authenticateWithFirebase env signIn email password >>= fun firebaseUser =>
  match dbByUid firebaseUser.localId with
  | .failure _ => .error "User not found in database"
  | .success dbUser =>
    .ok (createSuccessResponse
      (.obj [("success", .bool true),
             ("user", sanitizeUserData dbUser),
             ("firebase_token", .str firebaseUser.idToken),
             ("refresh_token", .str firebaseUser.refreshToken),
             ("expires_in", .str firebaseUser.expiresIn)])
      200 [])

/-- The login endpoint: `withMiddleware` with the login handler,
`requireAuth: false, validateEnv: true`. -/
def loginServe (env : Env) (lookup : String → LookupResult)
    (signIn : Option Json → Option Json → SignInResult)
    (dbByUid : String → DbSingleResult) (req : Request) : Response :=
  withMiddleware env lookup req (loginHandler env signIn dbByUid)
    { requireAuth := false, validateEnv := true }

/-- Whether a response body (a JSON object) carries the given key. -/
def bodyHasKey (r : Response) (k : String) : Bool :=
  match r.body with
  | .json (.obj fields) => fields.any (fun p => p.1 = k)
  | _ => false

/-- CORS headers of the standalone register/duplicate handlers (only two
entries; `Content-Type` is added per response). -/
def registerCorsHeaders : List (String × String) :=
  [("Access-Control-Allow-Origin", "*"),
   ("Access-Control-Allow-Headers", "authorization, x-client-info, apikey, content-type")]

/-- Headers of the register handler's JSON responses:
spread of `registerCorsHeaders` plus `Content-Type`. -/
def registerJsonHeaders : List (String × String) :=
  mergeHeaders registerCorsHeaders [("Content-Type", "application/json")]

/-- Provider account data read from a successful `accounts:signUp` reply. -/
structure SignUpUser where
  localId : String
  idToken : String
deriving DecidableEq, Repr

/-- Reply of the provider's `accounts:signUp` fetch. -/
inductive SignUpResult where
  | httpError (message : Option String)
  | ok (user : SignUpUser)
deriving DecidableEq, Repr

/-- Identity-provider calls issued by the register handler, in order. -/
inductive ProviderCall where
  | signUpCall (email password displayName : Option Json)
  | deleteCall (idToken : String)

/-- Whether a provider call is the account-deletion call. -/
def isDeleteCall : ProviderCall → Bool
  | .deleteCall _ => true
  | _ => false

/-- External world of one register invocation: the `accounts:signUp`
reply, the data-store insert outcome, and whether the compensating
`accounts:delete` fetch itself rejects (`some m` = rejection with
message `m`; its HTTP status is never inspected by the code). -/
structure RegisterWorld where
  signUp : SignUpResult
  insert : DbSingleResult
  deleteFailure : Option String

/-- `password.length < 6` on a possibly-undefined JS value: only strings
have a numeric `length` here; otherwise the comparison is false. -/
def jsLenLtOpt (v : Option Json) (n : Nat) : Bool :=
  match v with
  | some (.str s) => s.length < n
  | _ => false

/-- The register handler's catch block: always status 500 with the
`error.message || 'Internal server error during registration'` body. -/
def registerErrorResponse (m : String) : Response :=
  { status := 500,
    body := .json (.obj [("error", .str (if m = "" then "Internal server error during registration" else m))]),
    headers := registerJsonHeaders }

/-- The try-block of the register handler, paired with the provider-call
trace accumulated before it returns or throws. -/
def registerBodySteps (env : Env) (world : RegisterWorld) (req : Request) :
    Except String Response × List ProviderCall :=
  match req.jsonBody with
  | .error m => (.error m, [])
  | .ok body =>
    let name := jsGet body "name"
    let email := jsGet body "email"
    let password := jsGet body "password"
    if !jsTruthyOpt name || !jsTruthyOpt email || !jsTruthyOpt password then
      (.ok { status := 400,
             body := .json (.obj [("error", .str "Missing required fields: name, email, and password are required")]),
             headers := registerJsonHeaders }, [])
    else if jsLenLtOpt password 6 then
      (.ok { status := 400,
             body := .json (.obj [("error", .str "Password must be at least 6 characters long")]),
             headers := registerJsonHeaders }, [])
    else if jsFalsyS (env "FIREBASE_WEB_API_KEY") then
      (.error "Firebase Web API Key not configured", [])
    else
      match world.signUp with
      | .httpError m =>
        (.error (jsOrStr m "Failed to create Firebase user"), [.signUpCall email password name])
      | .ok firebaseUser =>
        match world.insert with
        | .failure dbMessage =>
          match world.deleteFailure with
          | some m =>
            (.error m, [.signUpCall email password name, .deleteCall firebaseUser.idToken])
          | none =>
            (.error ("Database error: " ++ dbMessage),
             [.signUpCall email password name, .deleteCall firebaseUser.idToken])
        | .success dbUser =>
          (.ok { status := 201,
                 body := .json (.obj [("success", .bool true),
                                      ("user", .obj [("id", dbUser.id),
                                                     ("name", dbUser.name),
                                                     ("email", dbUser.email),
                                                     ("firebase_uid", .str dbUser.firebase_uid),
                                                     ("created_at", dbUser.created_at)])]),
                 headers := registerJsonHeaders }, [.signUpCall email password name])

/-- The register endpoint: CORS preflight short-circuit, then the try
body with its catch; the second component is the provider-call trace. -/
def register (env : Env) (world : RegisterWorld) (req : Request) :
    Response × List ProviderCall :=
  if req.method = "OPTIONS" then
    ({ status := 200, body := .text "ok", headers := registerCorsHeaders }, [])
  else
    match registerBodySteps env world req with
    | (.ok r, calls) => (r, calls)
    | (.error m, calls) => (registerErrorResponse m, calls)

/-- Fixture: an environment with all three required settings present. -/
def envAll : Env := fun k =>
  if k = "SUPABASE_URL" then some "http://localhost:54321" else
  if k = "SUPABASE_SERVICE_ROLE_KEY" then some "service-key" else
  if k = "FIREBASE_WEB_API_KEY" then some "web-key" else none

/-- Fixture: a lookup oracle whose every reply is a non-2xx error with
no message field. -/
def lookupNone : String → LookupResult := fun _ => .httpError none

/-- Fixture: a plain POST request with no Authorization header and an
unparsable body. -/
def reqPost : Request :=
  { method := "POST", url := { searchParams := [] },
    authorization := none, jsonBody := .error "parse error" }

/-- Fixture: an environment where only the store endpoint is set. -/
def envOnlyUrl : Env := fun k =>
  if k = "SUPABASE_URL" then some "http://localhost:54321" else none

/-- Fixture: an environment missing only the store service credential. -/
def envNoServiceKey : Env := fun k =>
  if k = "SUPABASE_URL" then some "http://localhost:54321" else
  if k = "FIREBASE_WEB_API_KEY" then some "web-key" else none

/-- The header guard `!authHeader || !authHeader.startsWith('Bearer ')`
as a single predicate on a request. -/
def noBearerHeader (req : Request) : Bool :=
  match req.authorization with
  | none => true
  | some a => !jsStartsWith a "Bearer "

/-- Fixture: a GET request carrying an Authorization header whose token
is whitespace only. -/
def reqEmptyBearer : Request :=
  { method := "GET", url := { searchParams := [] },
    authorization := some "Bearer   ", jsonBody := .error "no body" }

/-- Fixture: a GET request carrying the bearer token "tok" and an `id`
query parameter. -/
def reqBearer : Request :=
  { method := "GET", url := { searchParams := [("id", "7")] },
    authorization := some "Bearer tok", jsonBody := .error "no body" }

/-- Fixture: a lookup oracle that always answers 2xx with an empty
account list. -/
def lookupZeroUsers : String → LookupResult := fun _ => .success (some [])

/-- Fixture: an account as the provider returns it. -/
def userFix : FirebaseUser :=
  { localId := "uid1", email := "a@b.c", emailVerified := true,
    displayName := none, photoUrl := none, passwordHash := none,
    validSince := none, disabled := none, lastLoginAt := none, createdAt := none }

/-- Fixture: one lookup oracle covering the three outcomes — zero
accounts for "tok", one account for "tok2", non-2xx for anything else. -/
def lookupMixed : String → LookupResult := fun t =>
  if t = "tok" then .success (some [])
  else if t = "tok2" then .success (some [userFix])
  else .httpError (some "INVALID_ID_TOKEN")

/-- Fixture: a lookup oracle returning a single-account list. -/
def lookupOneUser : String → LookupResult := fun _ => .success (some [userFix])

/-- Fixture: a stored row owned by the fixture account, with an extra
column (a password hash) that sanitization must drop. -/
def rowOwn : UserRow :=
  { id := .num 7, name := .str "Nila", email := .str "a@b.c",
    firebase_uid := "uid1", created_at := .str "2024-01-01",
    updated_at := .str "2024-02-02", extra := [("password_hash", .str "h")] }

/-- Fixture: the same row owned by a different account. -/
def rowOther : UserRow :=
  { id := .num 7, name := .str "Nila", email := .str "a@b.c",
    firebase_uid := "uid2", created_at := .str "2024-01-01",
    updated_at := .str "2024-02-02", extra := [("password_hash", .str "h")] }

/-- Fixture: a sign-in oracle answering non-2xx with the provider's
INVALID_PASSWORD message. -/
def signInBad : Option Json → Option Json → SignInResult :=
  fun _ _ => .httpError (some "INVALID_PASSWORD")

/-- Fixture: a data-store oracle that finds no row. -/
def dbNoRow : String → DbSingleResult := fun _ => .failure "no rows returned"

/-- Fixture: a login request with well-formed credentials fields. -/
def reqLogin : Request :=
  { method := "POST", url := { searchParams := [] }, authorization := none,
    jsonBody := .ok (.obj [("email", .str "a@b.c"), ("password", .str "wrongpass")]) }

/-- Fixture: a register world where account creation succeeds, the
insert fails, and the compensating delete fetch resolves. -/
def worldRegFail : RegisterWorld :=
  { signUp := .ok { localId := "uid9", idToken := "freshTok" },
    insert := .failure "duplicate key value violates unique constraint",
    deleteFailure := none }

/-- Fixture: a well-formed registration request. -/
def reqRegister : Request :=
  { method := "POST", url := { searchParams := [] }, authorization := none,
    jsonBody := .ok (.obj [("name", .str "Nila"), ("email", .str "e@x.y"),
                           ("password", .str "secret7")]) }

/-!
Claim theorems and supporting lemmas.
-/

/-- C4: for every request whose method is OPTIONS, the pipeline returns
status 200 with body "ok" and the CORS headers, regardless of the
requireAuth and validateEnv options, the environment, the identity
provider, and the handler — i.e. the preflight short-circuit happens
before config validation, context construction, and authentication. -/
theorem c4_preflight_short_circuit (env : Env) (lookup : String → LookupResult)
    (req : Request) (handler : Request → MiddlewareContext → Except String Response)
    (opts : Options) (h : req.method = "OPTIONS") :
    withMiddleware env lookup req handler opts =
      { status := 200, body := .text "ok", headers := corsHeaders } := by
  simp [withMiddleware, runMiddleware, handleCorsPreflightRequest, h]

/-- C4 witness: a concrete OPTIONS request through the pipeline with
both options enabled and an empty environment. -/
theorem c4_preflight_short_circuit_witness :
    withMiddleware (fun _ => none) (fun _ => .httpError none)
      { method := "OPTIONS", url := { searchParams := [] },
        authorization := none, jsonBody := .error "x" }
      (fun _ _ => .error "boom") { requireAuth := true, validateEnv := true } =
      { status := 200, body := .text "ok", headers := corsHeaders } :=
  c4_preflight_short_circuit (fun _ => none) (fun _ => .httpError none)
    { method := "OPTIONS", url := { searchParams := [] },
      authorization := none, jsonBody := .error "x" }
    (fun _ _ => .error "boom") { requireAuth := true, validateEnv := true } rfl

/-- C3: every pipeline invocation yields exactly one well-formed
response: either the try body succeeded and its response is returned
unchanged, or it failed with some message and the failure is converted
at the boundary into a JSON error envelope whose status is one of the
taxonomy's codes, carrying the CORS headers; no failure escapes. -/
theorem c3_pipeline_total (env : Env) (lookup : String → LookupResult)
    (req : Request) (handler : Request → MiddlewareContext → Except String Response)
    (opts : Options) :
    (∃ r, runMiddleware env lookup req handler opts = .ok r ∧
          withMiddleware env lookup req handler opts = r) ∨
    (∃ m, runMiddleware env lookup req handler opts = .error m ∧
          withMiddleware env lookup req handler opts = middlewareErrorResponse m ∧
          (∃ em, (middlewareErrorResponse m).body = .json (.obj [("error", .str em)])) ∧
          ((middlewareErrorResponse m).status = 401 ∨ (middlewareErrorResponse m).status = 400 ∨
           (middlewareErrorResponse m).status = 404 ∨ (middlewareErrorResponse m).status = 403 ∨
           (middlewareErrorResponse m).status = 500) ∧
          (middlewareErrorResponse m).headers = corsHeaders) := by
  cases h : runMiddleware env lookup req handler opts with
  | ok r => exact Or.inl ⟨r, rfl, by simp [withMiddleware, h]⟩
  | error m =>
    refine Or.inr ⟨m, rfl, by simp [withMiddleware, h], ?_⟩
    unfold middlewareErrorResponse
    split_ifs <;> exact ⟨⟨_, rfl⟩, by simp [createErrorResponse], rfl⟩

/-- C2 (amended): for every failure caught at the pipeline boundary,
the status is determined by substring classification of the message
(Unauthorized → 401, else Missing required → 400, else not found/Not
found → 404, else Forbidden → 403, otherwise 500) and the body is
exactly the JSON envelope with the message — except that in the 500
branch an empty message is replaced by "Internal server error". -/
theorem c2_error_classification (env : Env) (lookup : String → LookupResult)
    (req : Request) (handler : Request → MiddlewareContext → Except String Response)
    (opts : Options) (m : String)
    (hrun : runMiddleware env lookup req handler opts = .error m) :
    (jsIncludes m "Unauthorized" = true →
      withMiddleware env lookup req handler opts = createErrorResponse m 401 []) ∧
    (jsIncludes m "Unauthorized" = false → jsIncludes m "Missing required" = true →
      withMiddleware env lookup req handler opts = createErrorResponse m 400 []) ∧
    (jsIncludes m "Unauthorized" = false → jsIncludes m "Missing required" = false →
     (jsIncludes m "not found" || jsIncludes m "Not found") = true →
      withMiddleware env lookup req handler opts = createErrorResponse m 404 []) ∧
    (jsIncludes m "Unauthorized" = false → jsIncludes m "Missing required" = false →
     (jsIncludes m "not found" || jsIncludes m "Not found") = false →
     jsIncludes m "Forbidden" = true →
      withMiddleware env lookup req handler opts = createErrorResponse m 403 []) ∧
    (jsIncludes m "Unauthorized" = false → jsIncludes m "Missing required" = false →
     (jsIncludes m "not found" || jsIncludes m "Not found") = false →
     jsIncludes m "Forbidden" = false → m ≠ "" →
      withMiddleware env lookup req handler opts = createErrorResponse m 500 []) ∧
    (jsIncludes m "Unauthorized" = false → jsIncludes m "Missing required" = false →
     (jsIncludes m "not found" || jsIncludes m "Not found") = false →
     jsIncludes m "Forbidden" = false → m = "" →
      withMiddleware env lookup req handler opts =
        createErrorResponse "Internal server error" 500 []) := by
  have hw : withMiddleware env lookup req handler opts = middlewareErrorResponse m := by
    simp [withMiddleware, hrun]
  refine ⟨?_, ?_, ?_, ?_, ?_, ?_⟩ <;> intros <;> simp_all [middlewareErrorResponse]

/-- C2 witness: a handler that throws "Boom" yields the unclassified
500 envelope carrying the message verbatim. -/
theorem c2_error_classification_witness :
    withMiddleware envAll lookupNone reqPost (fun _ _ => .error "Boom")
      { requireAuth := false, validateEnv := false } =
      createErrorResponse "Boom" 500 [] :=
  (c2_error_classification envAll lookupNone reqPost (fun _ _ => .error "Boom")
    { requireAuth := false, validateEnv := false } "Boom" rfl).2.2.2.2.1
    (by decide) (by decide) (by decide) (by decide) (by decide)

/-- C2 counterexample: a failure whose message is the empty string is
caught at the boundary, but the body is the envelope of "Internal
server error" rather than the envelope of the caught message. -/
theorem c2_counterexample :
    runMiddleware envAll lookupNone reqPost (fun _ _ => .error "")
      { requireAuth := false, validateEnv := false } = .error "" ∧
    (withMiddleware envAll lookupNone reqPost (fun _ _ => .error "")
      { requireAuth := false, validateEnv := false }).body ≠
      .json (.obj [("error", .str "")]) := by
  refine ⟨rfl, ?_⟩
  have h : withMiddleware envAll lookupNone reqPost (fun _ _ => .error "")
      { requireAuth := false, validateEnv := false } =
      createErrorResponse "Internal server error" 500 [] := rfl
  rw [h]
  simp [createErrorResponse]

/-- Bind on a failed `Except` computation short-circuits. -/
theorem exceptErrorBind {α β : Type} (e : String) (f : α → Except String β) :
    (Except.error e : Except String α) >>= f = .error e := rfl

/-- Bind on a successful `Except` computation continues. -/
theorem exceptOkBind {α β : Type} (a : α) (f : α → Except String β) :
    (Except.ok a : Except String α) >>= f = f a := rfl

/-- Classification of a non-empty message containing none of the
taxonomy substrings: the 500 branch with the message kept verbatim. -/
theorem middlewareErrorResponse_unclassified (m : String)
    (h1 : jsIncludes m "Unauthorized" = false)
    (h2 : jsIncludes m "Missing required" = false)
    (h3 : jsIncludes m "not found" = false)
    (h4 : jsIncludes m "Not found" = false)
    (h5 : jsIncludes m "Forbidden" = false)
    (h6 : m ≠ "") :
    middlewareErrorResponse m = createErrorResponse m 500 [] := by
  simp [middlewareErrorResponse, h1, h2, h3, h4, h5, h6]

/-- C6: for every validateEnv=true invocation of the pipeline on a
non-preflight request in which a non-empty subset of the three required
environment variables is missing, the response is the error envelope
with status 500 (hence within the claimed 500-or-400 range), and its
message is "Missing environment variables: " followed by the
comma-joined names of every missing variable, not just the first. -/
theorem c6_missing_env_vars (env : Env) (lookup : String → LookupResult)
    (req : Request) (handler : Request → MiddlewareContext → Except String Response)
    (r : Bool)
    (hm : req.method ≠ "OPTIONS")
    (hmiss : requiredEnvVars.filter (fun v => jsFalsyS (env v)) ≠ []) :
    withMiddleware env lookup req handler { requireAuth := r, validateEnv := true } =
      createErrorResponse
        ("Missing environment variables: " ++
          String.intercalate ", " (requiredEnvVars.filter (fun v => jsFalsyS (env v))))
        500 [] ∧
    (withMiddleware env lookup req handler { requireAuth := r, validateEnv := true }).status
      = 500 := by
  cases h1 : jsFalsyS (env "SUPABASE_URL") <;>
    cases h2 : jsFalsyS (env "SUPABASE_SERVICE_ROLE_KEY") <;>
      cases h3 : jsFalsyS (env "FIREBASE_WEB_API_KEY") <;>
        first
        | (simp [requiredEnvVars, h1, h2, h3] at hmiss; done)
        | (refine ⟨?_, ?_⟩ <;>
            (simp [withMiddleware, runMiddleware, handleCorsPreflightRequest, hm,
               requiredEnvVars, h1, h2, h3, exceptErrorBind]
             try rfl))

/-- C6 witness: with the service credential and the provider web key
both missing, the response message enumerates both names. -/
theorem c6_missing_env_vars_witness :
    withMiddleware envOnlyUrl lookupNone reqPost (fun _ _ => .error "boom")
      { requireAuth := false, validateEnv := true } =
      createErrorResponse
        "Missing environment variables: SUPABASE_SERVICE_ROLE_KEY, FIREBASE_WEB_API_KEY"
        500 [] ∧
    (withMiddleware envOnlyUrl lookupNone reqPost (fun _ _ => .error "boom")
      { requireAuth := false, validateEnv := true }).status = 500 :=
  c6_missing_env_vars envOnlyUrl lookupNone reqPost (fun _ _ => .error "boom") false
    (by decide) (by decide)

/-- C10: on every non-preflight request, when the store endpoint or the
store service credential is absent, the pipeline fails before the
handler runs: with validateEnv=false the response is exactly the 500
envelope with the "Missing Supabase configuration: SUPABASE_URL and
SUPABASE_SERVICE_ROLE_KEY are required" message, and for every option
combination the status is 500 and the response does not depend on the
handler. -/
theorem c10_supabase_config_required (env : Env) (lookup : String → LookupResult)
    (req : Request)
    (handler other : Request → MiddlewareContext → Except String Response)
    (opts : Options) (r : Bool)
    (hm : req.method ≠ "OPTIONS")
    (hmiss : jsFalsyS (env "SUPABASE_URL") = true ∨
             jsFalsyS (env "SUPABASE_SERVICE_ROLE_KEY") = true) :
    withMiddleware env lookup req handler { requireAuth := r, validateEnv := false } =
      createErrorResponse
        "Missing Supabase configuration: SUPABASE_URL and SUPABASE_SERVICE_ROLE_KEY are required"
        500 [] ∧
    (withMiddleware env lookup req handler opts).status = 500 ∧
    withMiddleware env lookup req handler opts = withMiddleware env lookup req other opts := by
  obtain ⟨ra, ve⟩ := opts
  have hb : (jsFalsyS (env "SUPABASE_URL") || jsFalsyS (env "SUPABASE_SERVICE_ROLE_KEY")) = true := by
    rcases hmiss with h | h <;> simp [h]
  cases h1 : jsFalsyS (env "SUPABASE_URL") <;>
    cases h2 : jsFalsyS (env "SUPABASE_SERVICE_ROLE_KEY") <;>
      cases h3 : jsFalsyS (env "FIREBASE_WEB_API_KEY") <;>
        cases ve <;>
          first
          | (rw [h1, h2] at hb; exact absurd hb (by decide))
          | (refine ⟨?_, ?_, ?_⟩ <;>
              (simp [withMiddleware, runMiddleware, handleCorsPreflightRequest, hm,
                 requiredEnvVars, createSupabaseClient, h1, h2, h3, exceptErrorBind]
               try rfl))

/-- C10 witness: with the service credential missing and
validateEnv=false, the pipeline answers 500 with the Supabase
configuration message for any handler. -/
theorem c10_supabase_config_required_witness :
    withMiddleware envNoServiceKey lookupNone reqPost (fun _ _ => .ok (createSuccessResponse .null 200 []))
      { requireAuth := false, validateEnv := false } =
      createErrorResponse
        "Missing Supabase configuration: SUPABASE_URL and SUPABASE_SERVICE_ROLE_KEY are required"
        500 [] ∧
    (withMiddleware envNoServiceKey lookupNone reqPost (fun _ _ => .ok (createSuccessResponse .null 200 []))
      { requireAuth := true, validateEnv := true }).status = 500 ∧
    withMiddleware envNoServiceKey lookupNone reqPost (fun _ _ => .ok (createSuccessResponse .null 200 []))
      { requireAuth := true, validateEnv := true } =
    withMiddleware envNoServiceKey lookupNone reqPost (fun _ _ => .error "other")
      { requireAuth := true, validateEnv := true } :=
  c10_supabase_config_required envNoServiceKey lookupNone reqPost
    (fun _ _ => .ok (createSuccessResponse .null 200 [])) (fun _ _ => .error "other")
    { requireAuth := true, validateEnv := true } false
    (by decide) (Or.inr (by decide))

/-- C5: for requireAuth=true invocations, a missing or non-Bearer
Authorization header fails the pipeline with "Unauthorized: No valid
Bearer token provided" at status 401; a Bearer header whose token is
empty after stripping the prefix (and trimming, as the code does) fails
with "Unauthorized: Empty token provided" at 401; otherwise extraction
delegates to verifyToken on the stripped token. -/
theorem c5_bearer_token_extraction (env : Env) (lookup : String → LookupResult)
    (req1 req2 req3 : Request)
    (handler : Request → MiddlewareContext → Except String Response)
    (opts : Options) (a2 a3 t : String)
    (he1 : jsFalsyS (env "SUPABASE_URL") = false)
    (he2 : jsFalsyS (env "SUPABASE_SERVICE_ROLE_KEY") = false)
    (he3 : jsFalsyS (env "FIREBASE_WEB_API_KEY") = false)
    (hra : opts.requireAuth = true)
    (hm1 : req1.method ≠ "OPTIONS") (hm2 : req2.method ≠ "OPTIONS")
    (h1 : noBearerHeader req1 = true)
    (hauth2 : req2.authorization = some a2)
    (hpre2 : jsStartsWith a2 "Bearer " = true)
    (hemp2 : jsTrim (jsReplaceFirst a2 "Bearer " "") = "")
    (hauth3 : req3.authorization = some a3)
    (hpre3 : jsStartsWith a3 "Bearer " = true)
    (htok3 : jsTrim (jsReplaceFirst a3 "Bearer " "") = t)
    (hne3 : t ≠ "") :
    withMiddleware env lookup req1 handler opts =
      createErrorResponse "Unauthorized: No valid Bearer token provided" 401 [] ∧
    withMiddleware env lookup req2 handler opts =
      createErrorResponse "Unauthorized: Empty token provided" 401 [] ∧
    extractAndVerifyToken env lookup req3 = verifyFirebaseToken env lookup t := by
  obtain ⟨ra, ve⟩ := opts
  simp only at hra
  subst hra
  have hex1 : extractAndVerifyToken env lookup req1 =
      .error "Unauthorized: No valid Bearer token provided" := by
    unfold noBearerHeader at h1
    cases ha : req1.authorization with
    | none => simp [extractAndVerifyToken, ha]
    | some a =>
      rw [ha] at h1
      simp only [Bool.not_eq_true'] at h1
      simp [extractAndVerifyToken, ha, h1]
  have hex2 : extractAndVerifyToken env lookup req2 =
      .error "Unauthorized: Empty token provided" := by
    simp [extractAndVerifyToken, hauth2, hpre2, hemp2]
  refine ⟨?_, ?_, ?_⟩
  · cases ve <;>
      (simp [withMiddleware, runMiddleware, handleCorsPreflightRequest, hm1,
         requiredEnvVars, createSupabaseClient, he1, he2, he3,
         exceptErrorBind, exceptOkBind, hex1]
       try rfl)
  · cases ve <;>
      (simp [withMiddleware, runMiddleware, handleCorsPreflightRequest, hm2,
         requiredEnvVars, createSupabaseClient, he1, he2, he3,
         exceptErrorBind, exceptOkBind, hex2]
       try rfl)
  · simp [extractAndVerifyToken, hauth3, hpre3, htok3, hne3]

/-- C5 witness: the three header shapes exercised on concrete requests
against the fully configured environment. -/
theorem c5_bearer_token_extraction_witness :
    withMiddleware envAll lookupNone reqPost (fun _ _ => .error "boom")
      { requireAuth := true, validateEnv := true } =
      createErrorResponse "Unauthorized: No valid Bearer token provided" 401 [] ∧
    withMiddleware envAll lookupNone reqEmptyBearer (fun _ _ => .error "boom")
      { requireAuth := true, validateEnv := true } =
      createErrorResponse "Unauthorized: Empty token provided" 401 [] ∧
    extractAndVerifyToken envAll lookupNone reqBearer =
      verifyFirebaseToken envAll lookupNone "tok" :=
  c5_bearer_token_extraction envAll lookupNone reqPost reqEmptyBearer reqBearer
    (fun _ _ => .error "boom") { requireAuth := true, validateEnv := true }
    "Bearer   " "Bearer tok" "tok"
    (by decide) (by decide) (by decide) rfl (by decide) (by decide)
    (by decide) rfl (by decide) (by decide) rfl (by decide) (by decide) (by decide)

/-- C1 (amended): verifyToken's own catch re-wraps every failure of its
try block as "Firebase token verification failed: <cause>", so a lookup
that is non-2xx or returns zero accounts surfaces with the wrapped
message and the pipeline classifies it 500 (the wrapped default causes
contain none of the taxonomy substrings) instead of 401; on success
verifyToken returns the first account of the returned list. -/
theorem c1_verify_token_lookup (env : Env) (lookup : String → LookupResult)
    (req : Request) (handler : Request → MiddlewareContext → Except String Response)
    (opts : Options) (a t t2 t3 : String) (u : FirebaseUser)
    (rest : List FirebaseUser) (m : Option String)
    (he1 : jsFalsyS (env "SUPABASE_URL") = false)
    (he2 : jsFalsyS (env "SUPABASE_SERVICE_ROLE_KEY") = false)
    (he3 : jsFalsyS (env "FIREBASE_WEB_API_KEY") = false)
    (hra : opts.requireAuth = true)
    (hm : req.method ≠ "OPTIONS")
    (hauth : req.authorization = some a)
    (hpre : jsStartsWith a "Bearer " = true)
    (htok : jsTrim (jsReplaceFirst a "Bearer " "") = t)
    (hne : t ≠ "")
    (hzero : lookup t = .success (some []))
    (hok : lookup t2 = .success (some (u :: rest)))
    (hhttp : lookup t3 = .httpError m) :
    verifyFirebaseToken env lookup t =
      .error "Firebase token verification failed: Invalid token: No user found" ∧
    withMiddleware env lookup req handler opts =
      createErrorResponse
        "Firebase token verification failed: Invalid token: No user found" 500 [] ∧
    verifyFirebaseToken env lookup t2 = .ok u ∧
    verifyFirebaseToken env lookup t3 =
      .error ("Firebase token verification failed: " ++ jsOrStr m "Invalid or expired token") := by
  obtain ⟨ra, ve⟩ := opts
  simp only at hra
  subst hra
  have hv : verifyFirebaseToken env lookup t =
      .error "Firebase token verification failed: Invalid token: No user found" := by
    simp [verifyFirebaseToken, he3, verifyLookupStep, hzero]
  have hex : extractAndVerifyToken env lookup req =
      .error "Firebase token verification failed: Invalid token: No user found" := by
    simp [extractAndVerifyToken, hauth, hpre, htok, hne, hv]
  refine ⟨hv, ?_, ?_, ?_⟩
  · cases ve <;>
      (simp [withMiddleware, runMiddleware, handleCorsPreflightRequest, hm,
         requiredEnvVars, createSupabaseClient, he1, he2, he3,
         exceptErrorBind, exceptOkBind, hex]
       try rfl)
  · simp [verifyFirebaseToken, he3, verifyLookupStep, hok]
  · simp [verifyFirebaseToken, he3, verifyLookupStep, hhttp]

/-- C1 witness: concrete tokens for the three lookup outcomes against
the configured environment and a bearer request. -/
theorem c1_verify_token_lookup_witness :
    verifyFirebaseToken envAll lookupMixed "tok" =
      .error "Firebase token verification failed: Invalid token: No user found" ∧
    withMiddleware envAll lookupMixed reqBearer
      (fun _ _ => .ok (createSuccessResponse .null 200 []))
      { requireAuth := true, validateEnv := true } =
      createErrorResponse
        "Firebase token verification failed: Invalid token: No user found" 500 [] ∧
    verifyFirebaseToken envAll lookupMixed "tok2" = .ok userFix ∧
    verifyFirebaseToken envAll lookupMixed "tok3" =
      .error ("Firebase token verification failed: " ++
        jsOrStr (some "INVALID_ID_TOKEN") "Invalid or expired token") :=
  c1_verify_token_lookup envAll lookupMixed reqBearer
    (fun _ _ => .ok (createSuccessResponse .null 200 []))
    { requireAuth := true, validateEnv := true } "Bearer tok" "tok" "tok2" "tok3"
    userFix [] (some "INVALID_ID_TOKEN")
    (by decide) (by decide) (by decide) rfl (by decide) rfl
    (by decide) (by decide) (by decide) rfl rfl rfl

/-- C1 counterexample: with a 2xx lookup returning zero accounts, the
pipeline's response has status 500, not the claimed 401, and the
verifyToken failure message is the wrapped one, not the claimed
"Invalid token: No user found" verbatim. -/
theorem c1_counterexample :
    (withMiddleware envAll lookupZeroUsers reqBearer
      (fun _ _ => .ok (createSuccessResponse .null 200 []))
      { requireAuth := true, validateEnv := true }).status = 500 ∧
    (withMiddleware envAll lookupZeroUsers reqBearer
      (fun _ _ => .ok (createSuccessResponse .null 200 []))
      { requireAuth := true, validateEnv := true }).status ≠ 401 ∧
    verifyFirebaseToken envAll lookupZeroUsers "tok" =
      .error "Firebase token verification failed: Invalid token: No user found" ∧
    verifyFirebaseToken envAll lookupZeroUsers "tok" ≠
      .error "Invalid token: No user found" := by
  refine ⟨rfl, by decide, rfl, ?_⟩
  rw [show verifyFirebaseToken envAll lookupZeroUsers "tok" =
    Except.error "Firebase token verification failed: Invalid token: No user found" from rfl]
  simp

/-- C7: for an authenticated get-user request resolving to a stored
row, an owner reference differing from the authenticated account's
identifier yields the Forbidden envelope at 403, and a matching owner
reference yields 200 with exactly the sanitized six-field user object
(id, name, email, firebase_uid, created_at, updated_at) and no other
fields. -/
theorem c7_get_user_ownership (env : Env) (lookup : String → LookupResult)
    (dbById : String → DbSingleResult) (req : Request) (a t uid : String)
    (u : FirebaseUser) (rest : List FirebaseUser) (row : UserRow)
    (he1 : jsFalsyS (env "SUPABASE_URL") = false)
    (he2 : jsFalsyS (env "SUPABASE_SERVICE_ROLE_KEY") = false)
    (he3 : jsFalsyS (env "FIREBASE_WEB_API_KEY") = false)
    (hm : req.method ≠ "OPTIONS")
    (hauth : req.authorization = some a)
    (hpre : jsStartsWith a "Bearer " = true)
    (htok : jsTrim (jsReplaceFirst a "Bearer " "") = t)
    (hne : t ≠ "")
    (hlk : lookup t = .success (some (u :: rest)))
    (hq : urlSearchGet req.url "id" = some uid)
    (hqne : uid ≠ "")
    (hdb : dbById uid = .success row) :
    (row.firebase_uid ≠ u.localId →
      getUserServe env lookup dbById req =
        createErrorResponse "Forbidden: You can only access your own user data" 403 []) ∧
    (row.firebase_uid = u.localId →
      getUserServe env lookup dbById req =
        createSuccessResponse
          (.obj [("success", .bool true),
                 ("user", sanitizeUserData row),
                 ("authenticated_as",
                  .obj [("email", .str u.email), ("firebase_uid", .str u.localId)])])
          200 [] ∧
      jsonObjKeys (sanitizeUserData row) =
        ["id", "name", "email", "firebase_uid", "created_at", "updated_at"]) := by
  have hv : verifyFirebaseToken env lookup t = .ok u := by
    simp [verifyFirebaseToken, he3, verifyLookupStep, hlk]
  have hex : extractAndVerifyToken env lookup req = .ok u := by
    simp [extractAndVerifyToken, hauth, hpre, htok, hne, hv]
  have hqp : getRequiredQueryParam req.url "id" = .ok uid := by
    simp [getRequiredQueryParam, hq, hqne]
  constructor
  · intro hneq
    have hmis : ownerMismatch row (some u) = true := by simp [ownerMismatch, hneq]
    simp [getUserServe, withMiddleware, runMiddleware, handleCorsPreflightRequest, hm,
      requiredEnvVars, createSupabaseClient, he1, he2, he3,
      exceptErrorBind, exceptOkBind, hex, getUserHandler, hqp, hdb, hmis]
    try rfl
  · intro heq
    have hmis : ownerMismatch row (some u) = false := by simp [ownerMismatch, heq]
    refine ⟨?_, by simp [sanitizeUserData, jsonObjKeys]⟩
    simp [getUserServe, withMiddleware, runMiddleware, handleCorsPreflightRequest, hm,
      requiredEnvVars, createSupabaseClient, he1, he2, he3,
      exceptErrorBind, exceptOkBind, hex, getUserHandler, hqp, hdb, hmis,
      authenticatedAsJson]
    try rfl

/-- C7 witness: the concrete get-user request against a row of another
owner (403) and against the caller's own row (200 with the six-field
projection). -/
theorem c7_get_user_ownership_witness :
    getUserServe envAll lookupOneUser (fun _ => .success rowOther) reqBearer =
      createErrorResponse "Forbidden: You can only access your own user data" 403 [] ∧
    getUserServe envAll lookupOneUser (fun _ => .success rowOwn) reqBearer =
      createSuccessResponse
        (.obj [("success", .bool true),
               ("user", sanitizeUserData rowOwn),
               ("authenticated_as",
                .obj [("email", .str "a@b.c"), ("firebase_uid", .str "uid1")])])
        200 [] ∧
    jsonObjKeys (sanitizeUserData rowOwn) =
      ["id", "name", "email", "firebase_uid", "created_at", "updated_at"] :=
  ⟨(c7_get_user_ownership envAll lookupOneUser (fun _ => .success rowOther) reqBearer
      "Bearer tok" "tok" "7" userFix [] rowOther
      (by decide) (by decide) (by decide) (by decide) rfl (by decide) rfl
      (by decide) rfl rfl (by decide) rfl).1 (by decide),
   (c7_get_user_ownership envAll lookupOneUser (fun _ => .success rowOwn) reqBearer
      "Bearer tok" "tok" "7" userFix [] rowOwn
      (by decide) (by decide) (by decide) (by decide) rfl (by decide) rfl
      (by decide) rfl rfl (by decide) rfl).2 rfl⟩

/-- C9 (amended): a login request with well-formed, truthy email and
password fields whose provider sign-in call is non-2xx fails with the
provider's message (or the "Invalid login credentials" fallback); when
that message contains none of the taxonomy substrings the response is
the 500 error envelope — not 401/400 — and the body carries no token
bundle (no firebase_token, refresh_token, or expires_in key). -/
theorem c9_login_bad_credentials (env : Env) (lookup : String → LookupResult)
    (signIn : Option Json → Option Json → SignInResult)
    (dbByUid : String → DbSingleResult) (req : Request) (b : Json)
    (em : Option String)
    (he1 : jsFalsyS (env "SUPABASE_URL") = false)
    (he2 : jsFalsyS (env "SUPABASE_SERVICE_ROLE_KEY") = false)
    (he3 : jsFalsyS (env "FIREBASE_WEB_API_KEY") = false)
    (hm : req.method ≠ "OPTIONS")
    (hb : req.jsonBody = .ok b)
    (hemail : jsTruthyOpt (jsGet b "email") = true)
    (hpass : jsTruthyOpt (jsGet b "password") = true)
    (hsi : signIn (jsGet b "email") (jsGet b "password") = .httpError em)
    (hc1 : jsIncludes (jsOrStr em "Invalid login credentials") "Unauthorized" = false)
    (hc2 : jsIncludes (jsOrStr em "Invalid login credentials") "Missing required" = false)
    (hc3 : jsIncludes (jsOrStr em "Invalid login credentials") "not found" = false)
    (hc4 : jsIncludes (jsOrStr em "Invalid login credentials") "Not found" = false)
    (hc5 : jsIncludes (jsOrStr em "Invalid login credentials") "Forbidden" = false) :
    loginServe env lookup signIn dbByUid req =
      createErrorResponse (jsOrStr em "Invalid login credentials") 500 [] ∧
    bodyHasKey (loginServe env lookup signIn dbByUid req) "firebase_token" = false ∧
    bodyHasKey (loginServe env lookup signIn dbByUid req) "refresh_token" = false ∧
    bodyHasKey (loginServe env lookup signIn dbByUid req) "expires_in" = false := by
  have hne : jsOrStr em "Invalid login credentials" ≠ "" := by
    cases em with
    | none => simp [jsOrStr]
    | some s =>
      by_cases hs : s = "" <;> simp [jsOrStr, hs]
  have hvf : validateRequiredFields b ["email", "password"] = .ok () := by
    simp [validateRequiredFields, hemail, hpass]
  have hauth : authenticateWithFirebase env signIn (jsGet b "email") (jsGet b "password") =
      .error (jsOrStr em "Invalid login credentials") := by
    simp [authenticateWithFirebase, he3, hsi]
  have hrun : runMiddleware env lookup req (loginHandler env signIn dbByUid)
      { requireAuth := false, validateEnv := true } =
      .error (jsOrStr em "Invalid login credentials") := by
    simp [runMiddleware, handleCorsPreflightRequest, hm, requiredEnvVars,
      he1, he2, he3, createSupabaseClient, exceptOkBind, loginHandler, hb,
      hvf, hauth, exceptErrorBind]
  have hresp : loginServe env lookup signIn dbByUid req =
      createErrorResponse (jsOrStr em "Invalid login credentials") 500 [] := by
    rw [loginServe, withMiddleware, hrun]
    exact middlewareErrorResponse_unclassified _ hc1 hc2 hc3 hc4 hc5 hne
  refine ⟨hresp, ?_, ?_, ?_⟩ <;> rw [hresp] <;> simp [bodyHasKey, createErrorResponse]

/-- C9 witness: the concrete failed login through the pipeline. -/
theorem c9_login_bad_credentials_witness :
    loginServe envAll lookupNone signInBad dbNoRow reqLogin =
      createErrorResponse (jsOrStr (some "INVALID_PASSWORD") "Invalid login credentials") 500 [] ∧
    bodyHasKey (loginServe envAll lookupNone signInBad dbNoRow reqLogin) "firebase_token" = false ∧
    bodyHasKey (loginServe envAll lookupNone signInBad dbNoRow reqLogin) "refresh_token" = false ∧
    bodyHasKey (loginServe envAll lookupNone signInBad dbNoRow reqLogin) "expires_in" = false :=
  c9_login_bad_credentials envAll lookupNone signInBad dbNoRow reqLogin
    (.obj [("email", .str "a@b.c"), ("password", .str "wrongpass")])
    (some "INVALID_PASSWORD")
    (by decide) (by decide) (by decide) (by decide) rfl rfl rfl rfl
    (by decide) (by decide) (by decide) (by decide) (by decide)

/-- C9 counterexample: the failed login's status is 500, which is
neither of the claimed 401/400. -/
theorem c9_counterexample :
    (loginServe envAll lookupNone signInBad dbNoRow reqLogin).status = 500 ∧
    (loginServe envAll lookupNone signInBad dbNoRow reqLogin).status ≠ 401 ∧
    (loginServe envAll lookupNone signInBad dbNoRow reqLogin).status ≠ 400 := by
  refine ⟨rfl, by decide, by decide⟩

/-- C8: whenever the provider account creation succeeds and the
data-store insert fails, the register handler issues exactly one
account-deletion call, carrying the freshly issued token, before
returning; the returned status is 500, and when the compensating fetch
itself does not reject, the response is exactly the database-error
envelope. The call trace is the full sequence of provider calls made
prior to the response, so the delete precedes the returned error. -/
theorem c8_register_compensation (env : Env) (world : RegisterWorld)
    (req : Request) (b : Json) (fu : SignUpUser) (dbMessage : String)
    (hm : req.method ≠ "OPTIONS")
    (hb : req.jsonBody = .ok b)
    (hn : jsTruthyOpt (jsGet b "name") = true)
    (he : jsTruthyOpt (jsGet b "email") = true)
    (hp : jsTruthyOpt (jsGet b "password") = true)
    (hlen : jsLenLtOpt (jsGet b "password") 6 = false)
    (hkey : jsFalsyS (env "FIREBASE_WEB_API_KEY") = false)
    (hsu : world.signUp = .ok fu)
    (hins : world.insert = .failure dbMessage) :
    (register env world req).2 =
      [.signUpCall (jsGet b "email") (jsGet b "password") (jsGet b "name"),
       .deleteCall fu.idToken] ∧
    (register env world req).2.filter isDeleteCall = [.deleteCall fu.idToken] ∧
    (register env world req).1.status = 500 ∧
    (world.deleteFailure = none →
      (register env world req).1 =
        registerErrorResponse ("Database error: " ++ dbMessage)) := by
  cases hd : world.deleteFailure with
  | none =>
    refine ⟨?_, ?_, ?_, fun _ => ?_⟩ <;>
      simp [register, registerBodySteps, hm, hb, hn, he, hp, hlen, hkey,
        hsu, hins, hd, isDeleteCall, registerErrorResponse]
  | some dm =>
    refine ⟨?_, ?_, ?_, by intro hc; simp at hc⟩ <;>
      simp [register, registerBodySteps, hm, hb, hn, he, hp, hlen, hkey,
        hsu, hins, hd, isDeleteCall, registerErrorResponse]

/-- C8 witness: the concrete failed-insert registration issues exactly
one delete call with the fresh token and returns the database error at
status 500. -/
theorem c8_register_compensation_witness :
    (register envAll worldRegFail reqRegister).2 =
      [.signUpCall (jsGet (.obj [("name", .str "Nila"), ("email", .str "e@x.y"),
                                 ("password", .str "secret7")]) "email")
                   (jsGet (.obj [("name", .str "Nila"), ("email", .str "e@x.y"),
                                 ("password", .str "secret7")]) "password")
                   (jsGet (.obj [("name", .str "Nila"), ("email", .str "e@x.y"),
                                 ("password", .str "secret7")]) "name"),
       .deleteCall "freshTok"] ∧
    (register envAll worldRegFail reqRegister).2.filter isDeleteCall =
      [.deleteCall "freshTok"] ∧
    (register envAll worldRegFail reqRegister).1.status = 500 ∧
    (worldRegFail.deleteFailure = none →
      (register envAll worldRegFail reqRegister).1 =
        registerErrorResponse
          ("Database error: " ++ "duplicate key value violates unique constraint")) :=
  c8_register_compensation envAll worldRegFail reqRegister
    (.obj [("name", .str "Nila"), ("email", .str "e@x.y"), ("password", .str "secret7")])
    { localId := "uid9", idToken := "freshTok" }
    "duplicate key value violates unique constraint"
    (by decide) rfl (by decide) (by decide) (by decide) (by decide) (by decide) rfl rfl
